import Mathlib

/-!
Verification of the natural-language specification of a real-estate listing
application (CRUD property management, a regression-based price estimator and
a rule-based natural-language property search) against its Python source.

The development shallowly embeds the relevant parts of the source:

* `app/models.py` — `PropertyRepository.update_property`, `encode_categorical`;
* `app/config.py` — the categorical encoding tables and the feature-column order;
* `app/services/ml_service.py` — `prepare_ml_data`, `train_model`,
  `predict_price` / `_get_ml_prediction`;
* `app/utils/search_utils.py` — the budget step of `extract_search_criteria`,
  and `filter_properties_strict`;
* `app/services/ai_service.py` — `_filter_properties_with_criteria` and the
  availability restriction of `search_properties`.

Python dictionaries holding property records become a `Property` structure with
`Option`-valued fields (`none` = key absent); `dict.get(key, default)` becomes
`Option.getD`.  Money, areas and distances are modelled by `ℚ` (the source uses
Python `int` / `float`; the float literals `0.8` / `1.2` are taken at their
mathematical value, which is what every claim below is about).  Python's stable
`list.sort(key=...)` is modelled by `List.insertionSort` with the non-strict
key comparison, which is the unique stable sort for that key.  External
collaborators (scikit-learn estimators, the pickle persistence layer and the
JSON file store) are modelled by explicit parameters, as the specification
treats them as external.
-/

/-! ## String helpers (Python `lower`, `strip`, `upper`, substring `in`) -/

/-- Python `str.lower()` (the source data is ASCII). -/
def lowerStr (s : String) : String := ⟨s.data.map Char.toLower⟩

/-- Python `str.upper()`. -/
def upperStr (s : String) : String := ⟨s.data.map Char.toUpper⟩

def isWsChar (c : Char) : Bool := c = ' ' || c = '\t' || c = '\n' || c = '\r'

/-- Python `str.strip()`. -/
def stripStr (s : String) : String :=
  ⟨((s.toList.dropWhile isWsChar).reverse.dropWhile isWsChar).reverse⟩

/-- Does `pre` occur at the head of `l`? -/
def listStartsWith : List Char → List Char → Bool
  | [], _ => true
  | _ :: _, [] => false
  | p :: ps, c :: cs => p = c && listStartsWith ps cs

/-- Python substring containment `needle in haystack` (note `"" in s` is `True`). -/
def listContainsSub (needle : List Char) : List Char → Bool
  | [] => needle.isEmpty
  | c :: cs => listStartsWith needle (c :: cs) || listContainsSub needle cs

/-- Python `needle in haystack` on strings. -/
def containsSub (needle haystack : String) : Bool :=
  listContainsSub needle.toList haystack.toList

/-! ## The property record (`data/properties.json` entries)

Fields are exactly the dictionary keys the embedded code reads; `none` models
an absent key.  The identifier is mandatory in every record the repository
handles (`property_data['id']` is an unguarded access in the source). -/

structure Property where
  id : String := ""
  judul_properti : Option String := none
  kelurahan : Option String := none
  kecamatan : Option String := none
  alamat : Option String := none
  deskripsi : Option String := none
  luas_tanah : Option ℚ := none
  luas_bangunan : Option ℚ := none
  kamar_tidur : Option ℤ := none
  kamar_mandi : Option ℤ := none
  carport : Option ℤ := none
  tahun_dibangun : Option ℤ := none
  lantai : Option ℤ := none
  harga : Option ℚ := none
  jarak_sekolah : Option ℚ := none
  jarak_rs : Option ℚ := none
  jarak_pasar : Option ℚ := none
  jenis_jalan : Option String := none
  kondisi : Option String := none
  sertifikat : Option String := none
  status : Option String := none
  created_at : Option String := none
  deriving Repr, DecidableEq

/-! ## `app/models.py` -/

/-- `encode_categorical(value, mapping)`: `mapping.get(value, 0)`.  A missing
label (`None`) is never a key of the tables, so it also falls to the default. -/
def lookupTable : List (String × ℤ) → String → Option ℤ
  | [], _ => none
  | (k, c) :: t, v => if v = k then some c else lookupTable t v

def encode_categorical (value : Option String) (mapping : List (String × ℤ)) : ℤ :=
  match value with
  | none => 0
  | some v => (lookupTable mapping v).getD 0

/-- `PropertyRepository.update_property(property_id, updated_data)` on the
in-memory list (the surrounding whole-file read/write is the external store).
The first record whose `id` equals `property_id` is replaced by the payload,
with the payload's `id` forced to `property_id` and, when the payload carries
no `created_at`, the original record's `created_at` copied over.  Returns the
new list and the `True`/`False` result of the Python function. -/
def update_property : List Property → String → Property → List Property × Bool
  | [], _, _ => ([], false)
  | p :: rest, pid, upd =>
    if p.id = pid then
      let upd' : Property :=
        { upd with
          id := pid
          created_at := match upd.created_at with
            | none => p.created_at
            | some t => some t }
      (upd' :: rest, true)
    else
      let r := update_property rest pid upd
      (p :: r.1, r.2)

/-! ## `app/config.py` encoding tables -/

def JENIS_JALAN_MAP : List (String × ℤ) :=
  [("gang_kecil", 1), ("jalan_sedang", 2), ("jalan_besar", 3)]

def KONDISI_MAP : List (String × ℤ) :=
  [("butuh_renovasi", 1), ("renovasi_ringan", 2), ("baik", 3), ("baru", 4)]

def SERTIFIKAT_MAP : List (String × ℤ) :=
  [("girik", 1), ("hgb", 2), ("shm", 3)]

/-! ## `app/services/ml_service.py` -/

/-- The 13-entry feature vector of `_get_ml_prediction` (lines 111–125),
in the fixed `Config.FEATURE_COLUMNS` order, with the source's `dict.get`
defaults. -/
def ml_features (d : Property) : List ℚ :=
  [d.luas_tanah.getD 100,
   d.luas_bangunan.getD 80,
   ((d.kamar_tidur.getD 2 : ℤ) : ℚ),
   ((d.kamar_mandi.getD 1 : ℤ) : ℚ),
   ((d.carport.getD 0 : ℤ) : ℚ),
   ((d.tahun_dibangun.getD 2020 : ℤ) : ℚ),
   ((d.lantai.getD 1 : ℤ) : ℚ),
   d.jarak_sekolah.getD 1000,
   d.jarak_rs.getD 2000,
   d.jarak_pasar.getD 1500,
   ((encode_categorical d.jenis_jalan JENIS_JALAN_MAP : ℤ) : ℚ),
   ((encode_categorical d.kondisi KONDISI_MAP : ℤ) : ℚ),
   ((encode_categorical d.sertifikat SERTIFIKAT_MAP : ℤ) : ℚ)]

/-- One training row of `prepare_ml_data` (lines 29–46): built only when
`prop.get('harga')` is truthy (present and non-zero) and both area keys are
present; features exactly as at prediction time, with the price appended. -/
def train_row (p : Property) : Option (List ℚ) :=
  match p.harga, p.luas_tanah, p.luas_bangunan with
  | some h, some lt, some lb =>
    if h = 0 then none
    else
      some [lt, lb,
            ((p.kamar_tidur.getD 2 : ℤ) : ℚ),
            ((p.kamar_mandi.getD 1 : ℤ) : ℚ),
            ((p.carport.getD 0 : ℤ) : ℚ),
            ((p.tahun_dibangun.getD 2020 : ℤ) : ℚ),
            ((p.lantai.getD 1 : ℤ) : ℚ),
            p.jarak_sekolah.getD 1000,
            p.jarak_rs.getD 2000,
            p.jarak_pasar.getD 1500,
            ((encode_categorical p.jenis_jalan JENIS_JALAN_MAP : ℤ) : ℚ),
            ((encode_categorical p.kondisi KONDISI_MAP : ℤ) : ℚ),
            ((encode_categorical p.sertifikat SERTIFIKAT_MAP : ℤ) : ℚ),
            h]
  | _, _, _ => none

/-- The source's usability test for a training row: `prop.get('harga')` truthy
and both area keys present (lines 29). -/
def usable_row (p : Property) : Bool :=
  (match p.harga with
   | some h => decide (h ≠ 0)
   | none => false)
  && p.luas_tanah.isSome && p.luas_bangunan.isSome

/-- The specification's notion of a usable training row ("a record with a
positive price and both land and building area present", spec glossary),
stated for comparison with the code's `usable_row`. -/
def usable_spec (p : Property) : Bool :=
  (match p.harga with
   | some h => decide (0 < h)
   | none => false)
  && p.luas_tanah.isSome && p.luas_bangunan.isSome

/-- The data-model invariant of the specification: price, if present, is
non-negative. -/
def price_nonneg (p : Property) : Bool :=
  match p.harga with
  | some h => decide (0 ≤ h)
  | none => true

/-- `prepare_ml_data` (lines 20–53): `None` when fewer than 5 records are
loaded or fewer than 5 usable rows result, otherwise the row list
(the pandas `DataFrame` is just this matrix). -/
def prepare_ml_data (props : List Property) : Option (List (List ℚ)) :=
  if props.length < 5 then none
  else
    let data := props.filterMap train_row
    if data.length < 5 then none else some data

/-- `train_model` (lines 55–80).  The scaler/regressor fits are external
scikit-learn calls and the pickle write is external I/O; their joint success
is the `persistOk` parameter.  The function returns `False` exactly when
`prepare_ml_data` declines or persistence fails. -/
def train_model (props : List Property) (persistOk : Bool) : Bool :=
  match prepare_ml_data props with
  | none => false
  | some _ => persistOk

/-- The mutable `(model, scaler)` pair of `MLPredictionService`.  The fitted
estimator and scaler are opaque external objects: the scaler's `transform` and
the estimator's `predict` are arbitrary functions, fallible (`Option`) because
the source wraps them in `try`/`except`. -/
structure MLState where
  model : Option (List ℚ → Option ℚ) := none
  scaler : Option (List ℚ → Option (List ℚ)) := none

/-- The state `_get_ml_prediction` works with after its load-on-miss step
(lines 104–106): the current state if a model is present, otherwise the
outcome of `load_model` (`none` = load failed). -/
def effectiveState (st : MLState) (loadResult : Option MLState) : Option MLState :=
  match st.model with
  | none => loadResult
  | some _ => some st

/-- `_get_ml_prediction` (lines 102–139): load on miss, build the feature
vector, scale, predict, clamp at zero; any failure is converted to `None`. -/
def get_ml_prediction (st : MLState) (loadResult : Option MLState)
    (d : Property) : Option ℚ :=
  match effectiveState st loadResult with
  | none => none
  | some s =>
    match s.scaler, s.model with
    | some tr, some m =>
      match tr (ml_features d) with
      | some fs =>
        match m fs with
        | some pr => some (max 0 pr)
        | none => none
      | none => none
    | _, _ => none

/-- `predict_price` (lines 96–100): delegates to `_get_ml_prediction`. -/
def predict_price (st : MLState) (loadResult : Option MLState)
    (d : Property) : Option ℚ :=
  get_ml_prediction st loadResult d

/-- The documented defaults of the specification ("land area 100, building
area 80, bedrooms 2, bathrooms 1, carport 0, year 2020, floors 1,
school/hospital/market distances 1000/2000/1500"), filled into the missing
numeric fields of a property description.  Stated from the spec's words, for
comparison with the code's `dict.get` defaults. -/
def apply_documented_defaults (d : Property) : Property :=
  { d with
    luas_tanah := some (d.luas_tanah.getD 100)
    luas_bangunan := some (d.luas_bangunan.getD 80)
    kamar_tidur := some (d.kamar_tidur.getD 2)
    kamar_mandi := some (d.kamar_mandi.getD 1)
    carport := some (d.carport.getD 0)
    tahun_dibangun := some (d.tahun_dibangun.getD 2020)
    lantai := some (d.lantai.getD 1)
    jarak_sekolah := some (d.jarak_sekolah.getD 1000)
    jarak_rs := some (d.jarak_rs.getD 2000)
    jarak_pasar := some (d.jarak_pasar.getD 1500) }

/-! ## `app/utils/search_utils.py` — criteria object and strict filter -/

/-- The criteria dictionary produced by `extract_search_criteria`: each field
is a key the extractor may set (`none` = key absent; the extractor never
stores a null value, so an all-`none` record models the empty dictionary). -/
structure SearchCriteria where
  budget : Option ℚ := none
  budget_range : Option (ℚ × ℚ) := none
  kamar_tidur : Option ℤ := none
  kamar_mandi : Option ℤ := none
  min_luas_tanah : Option ℚ := none
  min_luas_bangunan : Option ℚ := none
  min_carport : Option ℤ := none
  max_distance_school : Option ℚ := none
  max_distance_hospital : Option ℚ := none
  max_distance_market : Option ℚ := none
  kondisi : Option String := none
  sertifikat : Option String := none
  kelurahan : Option String := none
  kecamatan : Option String := none
  price_preference : Option String := none
  size_preference : Option String := none
  deriving Repr, DecidableEq

namespace SearchCriteria

/-- Python's `not criteria` on the extractor's dictionary: true exactly when
no key was set. -/
def isEmpty (c : SearchCriteria) : Bool :=
  c.budget.isNone && c.budget_range.isNone && c.kamar_tidur.isNone
  && c.kamar_mandi.isNone && c.min_luas_tanah.isNone && c.min_luas_bangunan.isNone
  && c.min_carport.isNone && c.max_distance_school.isNone
  && c.max_distance_hospital.isNone && c.max_distance_market.isNone
  && c.kondisi.isNone && c.sertifikat.isNone && c.kelurahan.isNone
  && c.kecamatan.isNone && c.price_preference.isNone && c.size_preference.isNone

end SearchCriteria

/-- Bedroom check of `filter_properties_strict` (lines 222–227). -/
def checkKamarTidur (c : SearchCriteria) (p : Property) : Bool :=
  match c.kamar_tidur with
  | none => true
  | some r => decide (p.kamar_tidur.getD 0 = r)

/-- Bathroom check (lines 230–234). -/
def checkKamarMandi (c : SearchCriteria) (p : Property) : Bool :=
  match c.kamar_mandi with
  | none => true
  | some r => decide (p.kamar_mandi.getD 0 = r)

/-- Land-area check (lines 237–240). -/
def checkLuasTanah (c : SearchCriteria) (p : Property) : Bool :=
  match c.min_luas_tanah with
  | none => true
  | some m => decide (m ≤ p.luas_tanah.getD 0)

/-- Building-area check (lines 242–245). -/
def checkLuasBangunan (c : SearchCriteria) (p : Property) : Bool :=
  match c.min_luas_bangunan with
  | none => true
  | some m => decide (m ≤ p.luas_bangunan.getD 0)

/-- Carport check (lines 248–251). -/
def checkCarport (c : SearchCriteria) (p : Property) : Bool :=
  match c.min_carport with
  | none => true
  | some m => decide (m ≤ p.carport.getD 0)

/-- Kelurahan check with the source's fuzzy containment branches
(lines 254–267). -/
def checkKelurahan (c : SearchCriteria) (p : Property) : Bool :=
  match c.kelurahan with
  | none => true
  | some k =>
    let pk := stripStr (lowerStr (p.kelurahan.getD ""))
    let ck := stripStr (lowerStr k)
    (pk = ck : Bool)
    || (containsSub "gunung ibul" ck && containsSub "gunung ibul" pk)
    || containsSub ck pk || containsSub pk ck

/-- Kecamatan check (lines 270–281). -/
def checkKecamatan (c : SearchCriteria) (p : Property) : Bool :=
  match c.kecamatan with
  | none => true
  | some k =>
    let pk := stripStr (lowerStr (p.kecamatan.getD ""))
    let ck := stripStr (lowerStr k)
    (pk = ck : Bool) || containsSub ck pk || containsSub pk ck

/-- Certificate check (lines 284–287). -/
def checkSertifikat (c : SearchCriteria) (p : Property) : Bool :=
  match c.sertifikat with
  | none => true
  | some s => upperStr (p.sertifikat.getD "") = upperStr s

/-- Budget-range check (lines 290–297): a record whose price key is absent
(`get` default 0) or equal to 0 fails; otherwise the price must lie in the
band. -/
def checkBudget (c : SearchCriteria) (p : Property) : Bool :=
  match c.budget_range with
  | none => true
  | some (lo, hi) =>
    let price := p.harga.getD 0
    if price = 0 then false
    else decide (lo ≤ price) && decide (price ≤ hi)

/-- Distance-to-school check (lines 300–302); missing distance defaults
to 9999. -/
def checkSchool (c : SearchCriteria) (p : Property) : Bool :=
  match c.max_distance_school with
  | none => true
  | some m => decide (p.jarak_sekolah.getD 9999 ≤ m)

/-- Distance-to-hospital check (lines 304–306). -/
def checkHospital (c : SearchCriteria) (p : Property) : Bool :=
  match c.max_distance_hospital with
  | none => true
  | some m => decide (p.jarak_rs.getD 9999 ≤ m)

/-- Distance-to-market check (lines 308–310). -/
def checkMarket (c : SearchCriteria) (p : Property) : Bool :=
  match c.max_distance_market with
  | none => true
  | some m => decide (p.jarak_pasar.getD 9999 ≤ m)

/-- Condition check (lines 313–316). -/
def checkKondisi (c : SearchCriteria) (p : Property) : Bool :=
  match c.kondisi with
  | none => true
  | some k => lowerStr (p.kondisi.getD "") = lowerStr k

/-- The `matches` flag of `filter_properties_strict` after all the per-field
checks (lines 219–316): every specified criterion must hold. -/
def matchesCriteria (c : SearchCriteria) (p : Property) : Bool :=
  checkKamarTidur c p && checkKamarMandi c p && checkLuasTanah c p
  && checkLuasBangunan c p && checkCarport c p && checkKelurahan c p
  && checkKecamatan c p && checkSertifikat c p && checkBudget c p
  && checkSchool c p && checkHospital c p && checkMarket c p
  && checkKondisi c p

/-! Python's stable `list.sort(key=...)` (optionally `reverse=True`) is the
unique stable sort by the key; `List.insertionSort` with the matching
non-strict comparison computes exactly it. -/

def sortAscBy {α β : Type} [LinearOrder β] (key : α → β) (l : List α) : List α :=
  List.insertionSort (fun a b => key a ≤ key b) l

def sortDescBy {α β : Type} [LinearOrder β] (key : α → β) (l : List α) : List α :=
  List.insertionSort (fun a b => key b ≤ key a) l

/-- Sort key `p.get('harga', float('inf'))` (line 324): a missing price sorts
last, modelled by `WithTop ℚ`. -/
def priceKeyTop (p : Property) : WithTop ℚ :=
  match p.harga with
  | some h => (h : WithTop ℚ)
  | none => ⊤

/-- Sort key `p.get('harga', 0)` (line 326). -/
def priceKeyZero (p : Property) : ℚ := p.harga.getD 0

/-- Sort key `p.get('luas_tanah', 0) + p.get('luas_bangunan', 0)`
(lines 330, 332). -/
def areaKey (p : Property) : ℚ := p.luas_tanah.getD 0 + p.luas_bangunan.getD 0

/-- The price-preference override sort (`search_utils.py` lines 322–326 and
`ai_service.py` lines 321–325, which are identical): ascending by
`harga`-or-infinity for `'low'`, descending by `harga`-or-zero for `'high'`,
untouched otherwise. -/
def applyPricePref (pref : Option String) (l : List Property) : List Property :=
  match pref with
  | some s =>
    if s = "low" then sortAscBy priceKeyTop l
    else if s = "high" then sortDescBy priceKeyZero l
    else l
  | none => l

/-- The size-preference override sort (`search_utils.py` lines 328–332). -/
def applySizePref (pref : Option String) (l : List Property) : List Property :=
  match pref with
  | some s =>
    if s = "large" then sortDescBy areaKey l
    else if s = "small" then sortAscBy areaKey l
    else l
  | none => l

/-- `filter_properties_strict(properties, criteria)` (lines 209–334): early
return on the empty criteria dictionary; otherwise keep exactly the records
passing every specified criterion, then apply the price-preference sort and
after it the size-preference sort. -/
def filter_properties_strict (props : List Property) (c : SearchCriteria) :
    List Property :=
  if c.isEmpty then props
  else
    applySizePref c.size_preference
      (applyPricePref c.price_preference
        (props.filter (fun p => matchesCriteria c p)))

/-! ## `extract_search_criteria` — the budget step (lines 18–33)

The budget patterns are tried in order; for the first pattern with a match,
the first (leftmost) captured number is multiplied by 1 000 000 and the ±20%
band `(0.8·b, 1.2·b)` is stored.  The regular expressions are embedded
directly as scanners over the character list: each pattern is matched at every
position from the left (Python `re.findall`'s leftmost match), with `\d+`
taking the maximal digit run (backtracking can never help these patterns,
since after `\d+` and `\s*` every pattern requires a letter).  The query is
lowercased first; the normalisation step (lines 13–16) only deletes a fixed
set of letter-only words and cannot alter any of these matches' numbers or
unit words. -/

def takeDigitsAux : List Char → Nat → Nat × List Char
  | [], acc => (acc, [])
  | c :: cs, acc =>
    if c.isDigit then takeDigitsAux cs (acc * 10 + (c.toNat - '0'.toNat))
    else (acc, c :: cs)

/-- Maximal digit run `\d+` at the head of the list. -/
def takeDigits (l : List Char) : Option (Nat × List Char) :=
  match l with
  | c :: _ => if c.isDigit then some (takeDigitsAux l 0) else none
  | [] => none

/-- `\s*`. -/
def skipWs (l : List Char) : List Char := l.dropWhile isWsChar

/-- Literal-word match; returns the rest on success. -/
def matchLit : List Char → List Char → Option (List Char)
  | [], rest => some rest
  | _ :: _, [] => none
  | w :: ws, c :: cs => if w = c then matchLit ws cs else none

def isWordChar (c : Char) : Bool := c.isAlphanum || c = '_'

/-- `(\d+)\s*word` at the current position. -/
def matchNumThenWord (word : List Char) (l : List Char) : Option Nat :=
  match takeDigits l with
  | some (n, rest) =>
    match matchLit word (skipWs rest) with
    | some _ => some n
    | none => none
  | none => none

/-- `word\s*(\d+)` at the current position. -/
def matchWordThenNum (word : List Char) (l : List Char) : Option Nat :=
  match matchLit word l with
  | some rest =>
    match takeDigits (skipWs rest) with
    | some (n, _) => some n
    | none => none
  | none => none

/-- `(\d+)\s*m\b` at the current position. -/
def matchNumThenMBound (l : List Char) : Option Nat :=
  match takeDigits l with
  | some (n, rest) =>
    match skipWs rest with
    | c :: rest2 =>
      if c = 'm' then
        match rest2 with
        | [] => some n
        | c2 :: _ => if isWordChar c2 then none else some n
      else none
    | [] => none
  | none => none

/-- Leftmost match: try the pattern at each position from the left. -/
def scanLeftmost (f : List Char → Option Nat) : List Char → Option Nat
  | [] => f []
  | c :: rest =>
    match f (c :: rest) with
    | some n => some n
    | none => scanLeftmost f rest

/-- The budget-pattern loop (lines 19–33): patterns in source order, first
pattern with a match wins, result multiplied by 1 000 000. -/
def extract_budget (q : String) : Option Nat :=
  let l := (lowerStr q).toList
  let hit :=
    match scanLeftmost (matchNumThenWord "juta".toList) l with
    | some n => some n
    | none =>
      match scanLeftmost (matchWordThenNum "budget".toList) l with
      | some n => some n
      | none =>
        match scanLeftmost matchNumThenMBound l with
        | some n => some n
        | none =>
          match scanLeftmost (matchWordThenNum "harga".toList) l with
          | some n => some n
          | none => scanLeftmost (matchNumThenWord "milyar".toList) l
  hit.map (· * 1000000)

/-- The budget step of `extract_search_criteria` as a criteria dictionary:
`budget` and the ±20% `budget_range` keys (lines 30–32).  The other criteria
categories of the extractor are independent of the budget keys and are not
needed by any claim, so they are left unset here. -/
def extract_search_criteria (q : String) : SearchCriteria :=
  match extract_budget q with
  | some b =>
    { budget := some (b : ℚ)
      budget_range := some ((b : ℚ) * (4 / 5), (b : ℚ) * (6 / 5)) }
  | none => {}

/-! ## `app/services/ai_service.py` — scored filter and search pipeline -/

/-- The criteria dictionary `_extract_criteria_with_ai` asks the language
model for: all sixteen keys are always present, holding a value or null
(`none`).  The empty dictionary `{}` returned when extraction fails is
modelled at the call site by `Option AICriteria`. -/
structure AICriteria where
  budget_min : Option ℚ := none
  budget_max : Option ℚ := none
  kamar_tidur : Option ℤ := none
  kamar_mandi : Option ℤ := none
  kelurahan : Option String := none
  kecamatan : Option String := none
  luas_tanah_min : Option ℚ := none
  luas_bangunan_min : Option ℚ := none
  kondisi : Option String := none
  sertifikat : Option String := none
  carport : Option ℤ := none
  jarak_sekolah_max : Option ℚ := none
  jarak_rs_max : Option ℚ := none
  jarak_pasar_max : Option ℚ := none
  price_preference : Option String := none
  search_keywords : List String := []
  deriving Repr, DecidableEq

/-- The `passes_hard_filters` flag of `_filter_properties_with_criteria`
(lines 220–227): only the budget band (when both ends are given) is a hard
filter; a missing or non-positive price fails it. -/
def passes_hard_filters (c : AICriteria) (p : Property) : Bool :=
  match c.budget_min, c.budget_max with
  | some lo, some hi =>
    match p.harga with
    | none => false
    | some price =>
      if price ≤ 0 then false
      else decide (lo ≤ price) && decide (price ≤ hi)
  | _, _ => true

/-- Budget-proximity bonus (lines 228–238): granted only when the hard budget
filter passes; steps down with the relative distance from the band centre. -/
def budgetScore (c : AICriteria) (p : Property) : ℚ :=
  match c.budget_min, c.budget_max with
  | some lo, some hi =>
    match p.harga with
    | none => 0
    | some price =>
      if price ≤ 0 then 0
      else if price < lo || hi < price then 0
      else
        let center := (lo + hi) / 2
        let diff := |price - center| / center
        if diff ≤ 1 / 10 then 40
        else if diff ≤ 3 / 10 then 30
        else if diff ≤ 1 / 2 then 20
        else 10
  | _, _ => 0

/-- Bedroom bonus (lines 240–246): 25 exact, 12 off-by-one. -/
def bedroomScore (c : AICriteria) (p : Property) : ℚ :=
  match c.kamar_tidur with
  | none => 0
  | some r =>
    let pr := p.kamar_tidur.getD 0
    if pr = r then 25 else if |pr - r| = 1 then 12 else 0

/-- Bathroom bonus (lines 248–254): 15 exact, 7 off-by-one. -/
def bathroomScore (c : AICriteria) (p : Property) : ℚ :=
  match c.kamar_mandi with
  | none => 0
  | some r =>
    let pr := p.kamar_mandi.getD 0
    if pr = r then 15 else if |pr - r| = 1 then 7 else 0

/-- Kelurahan bonus (lines 256–260): mutual-containment match, 20 points;
skipped when the criteria value is null or the empty string (Python
truthiness). -/
def kelurahanScore (c : AICriteria) (p : Property) : ℚ :=
  match c.kelurahan with
  | none => 0
  | some k =>
    if k = "" then 0
    else
      let pk := stripStr (lowerStr (p.kelurahan.getD ""))
      let ck := stripStr (lowerStr k)
      if containsSub ck pk || containsSub pk ck then 20 else 0

/-- Kecamatan bonus (lines 262–266). -/
def kecamatanScore (c : AICriteria) (p : Property) : ℚ :=
  match c.kecamatan with
  | none => 0
  | some k =>
    if k = "" then 0
    else
      let pk := stripStr (lowerStr (p.kecamatan.getD ""))
      let ck := stripStr (lowerStr k)
      if containsSub ck pk || containsSub pk ck then 20 else 0

/-- Area bonuses (lines 268–276): 10 each. -/
def areaScore (c : AICriteria) (p : Property) : ℚ :=
  (match c.luas_tanah_min with
   | none => 0
   | some m => if m ≤ p.luas_tanah.getD 0 then 10 else 0)
  + (match c.luas_bangunan_min with
     | none => 0
     | some m => if m ≤ p.luas_bangunan.getD 0 then 10 else 0)

/-- Condition / certificate / carport bonuses (lines 278–288). -/
def attributeScore (c : AICriteria) (p : Property) : ℚ :=
  (match c.kondisi with
   | none => 0
   | some k =>
     if k = "" then 0
     else if lowerStr (p.kondisi.getD "") = lowerStr k then 10 else 0)
  + (match c.sertifikat with
     | none => 0
     | some s =>
       if s = "" then 0
       else if upperStr (p.sertifikat.getD "") = upperStr s then 10 else 0)
  + (match c.carport with
     | none => 0
     | some m => if m ≤ p.carport.getD 0 then 5 else 0)

/-- Facility-distance bonuses (lines 290–303): 10 each, missing distances
default to 999999. -/
def distanceScore (c : AICriteria) (p : Property) : ℚ :=
  (match c.jarak_sekolah_max with
   | none => 0
   | some m => if p.jarak_sekolah.getD 999999 ≤ m then 10 else 0)
  + (match c.jarak_rs_max with
     | none => 0
     | some m => if p.jarak_rs.getD 999999 ≤ m then 10 else 0)
  + (match c.jarak_pasar_max with
     | none => 0
     | some m => if p.jarak_pasar.getD 999999 ≤ m then 10 else 0)

/-- Keyword bonuses (lines 305–310): 15 per keyword contained in the
title/description/address text. -/
def keywordScore (c : AICriteria) (p : Property) : ℚ :=
  let text := lowerStr
    (p.judul_properti.getD "" ++ " " ++ p.deskripsi.getD "" ++ " "
      ++ p.alamat.getD "")
  (c.search_keywords.filter (fun k => containsSub (lowerStr k) text)).length * 15

/-- The additive score of `_filter_properties_with_criteria`
(lines 219–310). -/
def aiScore (c : AICriteria) (p : Property) : ℚ :=
  budgetScore c p + bedroomScore c p + bathroomScore c p + kelurahanScore c p
  + kecamatanScore c p + areaScore c p + attributeScore c p
  + distanceScore c p + keywordScore c p

/-- `_filter_properties_with_criteria(properties, criteria)` (lines 209–327).
`none` models the empty criteria dictionary (AI extraction failed), returned
unchanged (line 213).  Otherwise a record is kept when it passes the hard
filters **or** scores above zero (line 312); the kept records are sorted by
descending score (stable) and finally re-sorted by price when a price
preference is present. -/
def filter_properties_with_criteria (props : List Property) :
    Option AICriteria → List Property
  | none => props
  | some c =>
    applyPricePref c.price_preference
      (sortDescBy (aiScore c)
        (props.filter
          (fun p => passes_hard_filters c p || decide (0 < aiScore c p))))

/-- Python `p.get('status') == 'available'`. -/
def is_available (p : Property) : Bool := p.status == some "available"

/-- The search pipeline of `search_properties` (lines 50–66): restrict the
store to available records, then apply the criteria filter.  The display cap
`[:6]` at line 74 is the caller-side cap the specification places outside the
search component. -/
def search_properties (props : List Property) (criteria : Option AICriteria) :
    List Property :=
  filter_properties_with_criteria (props.filter is_available) criteria

/-! ## General lemmas about the embedded operations -/

theorem sorted_sortAscBy {α β : Type} [LinearOrder β] (key : α → β) (l : List α) :
    List.Sorted (fun a b => key a ≤ key b) (sortAscBy key l) := by
  haveI h1 : IsTotal α (fun a b => key a ≤ key b) := ⟨fun a b => le_total (key a) (key b)⟩
  haveI h2 : IsTrans α (fun a b => key a ≤ key b) := ⟨fun a b c hab hbc => le_trans hab hbc⟩
  exact List.sorted_insertionSort _ l

theorem sorted_sortDescBy {α β : Type} [LinearOrder β] (key : α → β) (l : List α) :
    List.Sorted (fun a b => key b ≤ key a) (sortDescBy key l) := by
  haveI h1 : IsTotal α (fun a b => key b ≤ key a) := ⟨fun a b => le_total (key b) (key a)⟩
  haveI h2 : IsTrans α (fun a b => key b ≤ key a) := ⟨fun a b c hab hbc => le_trans hbc hab⟩
  exact List.sorted_insertionSort _ l

theorem mem_sortAscBy {α β : Type} [LinearOrder β] (key : α → β) (l : List α) (p : α) :
    p ∈ sortAscBy key l ↔ p ∈ l := by
  simp [sortAscBy]

theorem mem_sortDescBy {α β : Type} [LinearOrder β] (key : α → β) (l : List α) (p : α) :
    p ∈ sortDescBy key l ↔ p ∈ l := by
  simp [sortDescBy]

theorem mem_applyPricePref (pref : Option String) (l : List Property) (p : Property) :
    p ∈ applyPricePref pref l ↔ p ∈ l := by
  rcases pref with _ | s
  · exact Iff.rfl
  · simp only [applyPricePref]
    split_ifs <;> simp [sortAscBy, sortDescBy]

theorem mem_applySizePref (pref : Option String) (l : List Property) (p : Property) :
    p ∈ applySizePref pref l ↔ p ∈ l := by
  rcases pref with _ | s
  · exact Iff.rfl
  · simp only [applySizePref]
    split_ifs <;> simp [sortAscBy, sortDescBy]

/-- Membership in the strict filter's result (for a non-empty criteria
dictionary): exactly the input records passing every specified criterion. -/
theorem mem_strict_iff (props : List Property) (c : SearchCriteria) (p : Property)
    (h : c.isEmpty = false) :
    p ∈ filter_properties_strict props c ↔ p ∈ props ∧ matchesCriteria c p = true := by
  unfold filter_properties_strict
  rw [if_neg (by simp [h])]
  rw [mem_applySizePref, mem_applyPricePref, List.mem_filter]

/-- Membership in the AI filter's result (for a non-empty criteria
dictionary): the input records that pass the hard filters or score above
zero. -/
theorem mem_ai_iff (props : List Property) (c : AICriteria) (p : Property) :
    p ∈ filter_properties_with_criteria props (some c) ↔
      p ∈ props ∧ (passes_hard_filters c p = true ∨ 0 < aiScore c p) := by
  unfold filter_properties_with_criteria
  rw [mem_applyPricePref, mem_sortDescBy, List.mem_filter]
  simp

theorem train_row_isSome (p : Property) : (train_row p).isSome = usable_row p := by
  rcases hh : p.harga with _ | h <;>
    rcases h1 : p.luas_tanah with _ | lt <;>
      rcases h2 : p.luas_bangunan with _ | lb <;>
        simp [train_row, usable_row, hh, h1, h2]
  split_ifs with h0 <;> simp [h0]

theorem length_filterMap_train :
    ∀ l : List Property, (l.filterMap train_row).length = l.countP usable_row := by
  intro l
  induction l with
  | nil => rfl
  | cons p t ih =>
    rw [List.filterMap_cons, List.countP_cons]
    cases htr : train_row p with
    | none =>
      have hu : usable_row p = false := by rw [← train_row_isSome, htr]; rfl
      simp [hu, ih]
    | some r =>
      have hu : usable_row p = true := by rw [← train_row_isSome, htr]; rfl
      simp [hu, ih]

theorem countP_le_len {α : Type} (q : α → Bool) : ∀ l : List α, l.countP q ≤ l.length := by
  intro l
  induction l with
  | nil => exact Nat.le_refl 0
  | cons a t ih =>
    rw [List.countP_cons, List.length_cons]
    split_ifs <;> omega

/-- Under the data-model invariant (price non-negative when present) the
code's truthiness test for a usable row agrees with the specification's
positive-price test. -/
theorem usable_row_eq_spec (p : Property) (h : price_nonneg p = true) :
    usable_row p = usable_spec p := by
  rcases hh : p.harga with _ | x
  · simp [usable_row, usable_spec, hh]
  · have hx : (0 : ℚ) ≤ x := by
      have := h
      unfold price_nonneg at this
      rw [hh] at this
      exact of_decide_eq_true this
    have hiff : (x ≠ 0) ↔ (0 < x) :=
      ⟨fun hne => lt_of_le_of_ne hx (Ne.symm hne), fun hlt => (ne_of_gt hlt)⟩
    simp [usable_row, usable_spec, hh, hiff]

theorem countP_usable_eq :
    ∀ l : List Property, (∀ p ∈ l, price_nonneg p = true) →
      l.countP usable_row = l.countP usable_spec := by
  intro l
  induction l with
  | nil => intro _; rfl
  | cons p t ih =>
    intro h
    rw [List.countP_cons, List.countP_cons,
      usable_row_eq_spec p (h p (List.mem_cons_self _ _)),
      ih (fun q hq => h q (List.mem_cons_of_mem _ hq))]

theorem lookupTable_eq_none (v : String) :
    ∀ m : List (String × ℤ), (∀ kc ∈ m, kc.1 ≠ v) → lookupTable m v = none := by
  intro m
  induction m with
  | nil => intro _; rfl
  | cons kc t ih =>
    intro h
    obtain ⟨k, cc⟩ := kc
    unfold lookupTable
    rw [if_neg]
    · exact ih (fun x hx => h x (List.mem_cons_of_mem _ hx))
    · intro he
      exact (h (k, cc) (List.mem_cons_self _ _)) he.symm

/-! ## Concrete records used by the claim witnesses and counterexamples -/

def usableRec : Property :=
  { id := "u", harga := some 100, luas_tanah := some 50, luas_bangunan := some 40 }

def availRec : Property := { id := "p1", status := some "available" }

def nopriceRec : Property := { id := "np" }

def budgetCrit : SearchCriteria :=
  { budget := some 500000000, budget_range := some (400000000, 600000000) }

def cexCrit : AICriteria :=
  { budget_min := some 100000000, budget_max := some 200000000, kamar_tidur := some 2 }

def cexProp : Property := { id := "x", harga := some 500000000, kamar_tidur := some 2 }

def c8crit : SearchCriteria :=
  { price_preference := some "low", size_preference := some "large" }

def sizeSmallCrit : SearchCriteria := { size_preference := some "small" }

def recA : Property := { id := "a", harga := some 100, luas_tanah := some 10 }

def recB : Property := { id := "b", harga := some 200, luas_tanah := some 50 }

def origRec : Property := { id := "a", created_at := some "2024-01-01" }

def updPayload : Property := { id := "a", created_at := some "2031-12-31" }

def updNoTs : Property := { id := "zzz", harga := some 123 }

def scW : SearchCriteria := { kamar_tidur := some 2 }

def recW : Property := { id := "w", kamar_tidur := some 2 }

/-! ## Claims -/

/-- C1 (counterexample): the claim "search drops every record that fails a
hard constraint regardless of its additive score" is false for
`_filter_properties_with_criteria`: this record fails the hard budget filter
(price 500 000 000 outside the 100–200 million band) yet is kept, because its
exact bedroom match scores 25 > 0 and the filter keeps records with
`passes_hard_filters or score > 0`. -/
theorem hard_filter_bypass_counterexample :
    passes_hard_filters cexCrit cexProp = false ∧
    cexProp ∈ filter_properties_with_criteria [cexProp] (some cexCrit) := by
  constructor
  · decide
  · refine (mem_ai_iff [cexProp] cexCrit cexProp).mpr ⟨List.mem_singleton.mpr rfl, Or.inr ?_⟩
    norm_num [aiScore, budgetScore, bedroomScore, bathroomScore, kelurahanScore,
      kecamatanScore, areaScore, attributeScore, distanceScore, keywordScore,
      cexCrit, cexProp]

/-- C1 (amended): `filter_properties_strict` keeps exactly the records
satisfying every specified criterion (all its criteria are hard), while
`_filter_properties_with_criteria` keeps a record exactly when it passes all
hard constraints (even with score 0) **or** its additive score is positive —
a record failing a hard constraint is dropped only when it also scores 0. -/
theorem hard_filter_score_membership (props : List Property) (c : AICriteria)
    (sc : SearchCriteria) (p : Property) (hsc : sc.isEmpty = false) :
    (p ∈ filter_properties_with_criteria props (some c) ↔
      p ∈ props ∧ (passes_hard_filters c p = true ∨ 0 < aiScore c p)) ∧
    (p ∈ filter_properties_strict props sc ↔
      p ∈ props ∧ matchesCriteria sc p = true) :=
  ⟨mem_ai_iff props c p, mem_strict_iff props sc p hsc⟩

/-- C1 (witness): a record matching the single hard bedroom criterion of a
non-empty strict criteria dictionary is kept. -/
theorem hard_filter_score_membership_witness :
    recW ∈ filter_properties_strict [recW] scW :=
  ((hard_filter_score_membership [recW] {} scW recW rfl).2).mpr
    ⟨List.mem_singleton.mpr rfl, by decide⟩

/-- C2: `extract_search_criteria` multiplies every matched amount by
1 000 000, whatever unit word matched: "500 juta" yields the claimed
500 000 000 with the ±20% band, but "1 milyar" yields 1 000 000 — not the
1 000 000 000 the specification requires for the billion unit word. -/
theorem extract_budget_million_scaling :
    (extract_search_criteria "500 juta").budget = some 500000000 ∧
    (extract_search_criteria "500 juta").budget_range
      = some (400000000, 600000000) ∧
    (extract_search_criteria "1 milyar").budget = some 1000000 ∧
    (extract_search_criteria "1 milyar").budget ≠ some 1000000000 := by
  have h5 : extract_budget "500 juta" = some 500000000 := by decide
  have h1 : extract_budget "1 milyar" = some 1000000 := by decide
  refine ⟨?_, ?_, ?_, ?_⟩
  · norm_num [extract_search_criteria, h5]
  · norm_num [extract_search_criteria, h5]
  · norm_num [extract_search_criteria, h1]
  · norm_num [extract_search_criteria, h1]

/-- C3: under the data-model invariant that prices are non-negative when
present, `train_model` returns failure whenever fewer than 5 usable records
(positive price, both areas present) exist — in particular with exactly 4 —
and succeeds with exactly 5 usable records (persistence succeeding). -/
theorem train_requires_five_usable_rows (props : List Property) (b : Bool)
    (hinv : props.all price_nonneg = true) :
    (props.countP usable_spec < 5 → train_model props b = false) ∧
    (props.countP usable_spec = 4 → train_model props b = false) ∧
    (props.countP usable_spec = 5 → train_model props true = true) := by
  have hdata : (props.filterMap train_row).length = props.countP usable_spec := by
    rw [length_filterMap_train]
    exact countP_usable_eq props (List.all_eq_true.mp hinv)
  have main : ∀ bb : Bool, props.countP usable_spec < 5 → train_model props bb = false := by
    intro bb h5
    unfold train_model prepare_ml_data
    by_cases hl : props.length < 5
    · simp [hl]
    · simp [hl, hdata, h5]
  refine ⟨main b, fun h4 => main b (by omega), fun h5 => ?_⟩
  have hlen : ¬ props.length < 5 := by
    have hle := countP_le_len usable_spec props
    omega
  unfold train_model prepare_ml_data
  simp [hlen, hdata, h5]

/-- C3 (witness): five usable records train successfully. -/
theorem train_requires_five_usable_rows_witness :
    train_model [usableRec, usableRec, usableRec, usableRec, usableRec] true = true :=
  (train_requires_five_usable_rows
      [usableRec, usableRec, usableRec, usableRec, usableRec] true (by decide)).2.2
    (by decide)

/-- C4: with zero extracted criteria the search pipeline returns exactly the
available-status subset of the store in its original order (the empty AI
criteria dictionary passes it through unchanged), and the strict filter's
early return likewise hands back its input list unchanged — no scoring pass
happens on either path. -/
theorem search_no_criteria_returns_available (props : List Property) :
    search_properties props none = props.filter is_available ∧
    (∀ c : SearchCriteria, c.isEmpty = true →
      filter_properties_strict props c = props) := by
  constructor
  · rfl
  · intro c hc
    simp [filter_properties_strict, hc]

/-- C4 (witness): the empty criteria dictionary returns the store as-is. -/
theorem search_no_criteria_returns_available_witness :
    filter_properties_strict [availRec] {} = [availRec] :=
  (search_no_criteria_returns_available [availRec]).2 {} rfl

/-- C5: `predict` builds its feature vector with exactly the documented
defaults — filling the missing numeric fields with the spec's defaults first
changes nothing — and on the empty description the vector is exactly
(100, 80, 2, 1, 0, 2020, 1, 1000, 2000, 1500) with the three missing
categorical labels encoded as 0.  The embedding is total: no key access can
raise. -/
theorem predict_uses_documented_defaults (d : Property) :
    ml_features d = ml_features (apply_documented_defaults d) ∧
    ml_features {} = [100, 80, 2, 1, 0, 2020, 1, 1000, 2000, 1500, 0, 0, 0] := by
  constructor
  · simp [ml_features, apply_documented_defaults]
  · decide

/-- C6: `encode_categorical` maps a missing label to 0 for every table, maps
a label that is no key of the table to 0, maps each known label of the three
configured tables to its fixed positive code, and the training-matrix row of
a usable record is exactly the prediction-time feature vector (same tables,
same fallback, same order) with the price appended. -/
theorem encode_categorical_contract :
    (∀ m : List (String × ℤ), encode_categorical none m = 0) ∧
    (∀ (v : String) (m : List (String × ℤ)),
        (∀ kc ∈ m, kc.1 ≠ v) → encode_categorical (some v) m = 0) ∧
    (∀ kc ∈ JENIS_JALAN_MAP,
        encode_categorical (some kc.1) JENIS_JALAN_MAP = kc.2 ∧ 0 < kc.2) ∧
    (∀ kc ∈ KONDISI_MAP,
        encode_categorical (some kc.1) KONDISI_MAP = kc.2 ∧ 0 < kc.2) ∧
    (∀ kc ∈ SERTIFIKAT_MAP,
        encode_categorical (some kc.1) SERTIFIKAT_MAP = kc.2 ∧ 0 < kc.2) ∧
    (∀ (p : Property) (r : List ℚ), train_row p = some r →
        r = ml_features p ++ [p.harga.getD 0]) := by
  refine ⟨fun m => rfl, ?_, by decide, by decide, by decide, ?_⟩
  · intro v m h
    simp [encode_categorical, lookupTable_eq_none v m h]
  · intro p r hr
    rcases hh : p.harga with _ | h <;>
      rcases h1 : p.luas_tanah with _ | lt <;>
        rcases h2 : p.luas_bangunan with _ | lb <;>
          rw [train_row, hh, h1, h2] at hr <;> simp at hr
    rcases hr with ⟨h0, hrr⟩
    subst hrr
    simp [ml_features, hh, h1, h2]

/-- C6 (witness): an unknown road label encodes to 0, and a concrete usable
record's training row is its prediction feature vector plus its price. -/
theorem encode_categorical_contract_witness :
    encode_categorical (some "aspal") JENIS_JALAN_MAP = 0 ∧
    ([50, 40, 2, 1, 0, 2020, 1, 1000, 2000, 1500, 0, 0, 0, 100] : List ℚ)
      = ml_features usableRec ++ [usableRec.harga.getD 0] :=
  ⟨encode_categorical_contract.2.1 "aspal" _ (by decide),
   encode_categorical_contract.2.2.2.2.2 usableRec _ (by decide)⟩

/-- C7: `predict_price` never propagates an exception (the embedding is a
total function): every returned value is non-negative (the raw output clamped
at zero), it returns no value when no model is available after the attempted
load, and it returns no value when the stored scaler's transform fails. -/
theorem predict_price_safe_result (st : MLState) (load : Option MLState)
    (d : Property) :
    (∀ r, predict_price st load d = some r → 0 ≤ r) ∧
    (st.model = none → load = none → predict_price st load d = none) ∧
    (∀ s tr, effectiveState st load = some s → s.scaler = some tr →
        tr (ml_features d) = none → predict_price st load d = none) := by
  refine ⟨?_, ?_, ?_⟩
  · intro r h
    rcases hes : effectiveState st load with _ | s
    · simp [predict_price, get_ml_prediction, hes] at h
    · simp only [predict_price, get_ml_prediction, hes] at h
      rcases hsc : s.scaler with _ | tr <;> rcases hm : s.model with _ | m <;>
        simp only [hsc, hm] at h
      · exact absurd h (by simp)
      · exact absurd h (by simp)
      · exact absurd h (by simp)
      · rcases htr : tr (ml_features d) with _ | fs <;> simp only [htr] at h
        · exact absurd h (by simp)
        · rcases hpr : m fs with _ | pr <;> simp only [hpr] at h
          · exact absurd h (by simp)
          · simp only [Option.some.injEq] at h
            rw [← h]
            exact le_max_left 0 pr
  · intro h1 h2
    simp [predict_price, get_ml_prediction, effectiveState, h1, h2]
  · intro s tr hes hsc htr
    rcases hm : s.model with _ | m <;>
      simp [predict_price, get_ml_prediction, hes, hsc, hm, htr]

/-- C7 (witness): with no model loaded and a failing load, prediction returns
no value. -/
theorem predict_price_safe_result_witness : predict_price {} none {} = none :=
  (predict_price_safe_result {} none {}).2.1 rfl rfl

/-- C8 (counterexample): the claim "with a price preference the final result
is sorted ascending by price for low" is false when a size preference is also
extracted (e.g. the query mentions both "murah" and "besar"): the size sort
runs after the price sort and destroys the price order. -/
theorem preference_sort_counterexample :
    c8crit.price_preference = some "low" ∧
    ¬ List.Sorted (fun a b => priceKeyTop a ≤ priceKeyTop b)
        (filter_properties_strict [recA, recB] c8crit) := by
  have hres : filter_properties_strict [recA, recB] c8crit = [recB, recA] := by
    norm_num [filter_properties_strict, c8crit, recA, recB, matchesCriteria,
      checkKamarTidur, checkKamarMandi, checkLuasTanah, checkLuasBangunan,
      checkCarport, checkKelurahan, checkKecamatan, checkSertifikat, checkBudget,
      checkSchool, checkHospital, checkMarket, checkKondisi, applyPricePref,
      applySizePref, sortAscBy, sortDescBy, List.insertionSort, List.orderedInsert,
      priceKeyTop, areaKey, SearchCriteria.isEmpty]
  refine ⟨rfl, ?_⟩
  rw [hres]
  intro hs
  have h := List.rel_of_sorted_cons hs recA (List.mem_singleton.mpr rfl)
  exact absurd h (by decide)

/-- C8 (amended): a price preference yields the claimed price order whenever
no size preference is present; a size preference always yields the claimed
total-area order (it is applied last and supersedes both the score order and
any price sort); in the AI filter (which has no size preference) a price
preference always yields the claimed price order, superseding the
score-descending order. -/
theorem preference_sort_order (props : List Property) (c : SearchCriteria)
    (ac : AICriteria) :
    (c.price_preference = some "low" → c.size_preference = none →
      List.Sorted (fun a b => priceKeyTop a ≤ priceKeyTop b)
        (filter_properties_strict props c)) ∧
    (c.price_preference = some "high" → c.size_preference = none →
      List.Sorted (fun a b => priceKeyZero b ≤ priceKeyZero a)
        (filter_properties_strict props c)) ∧
    (c.size_preference = some "small" →
      List.Sorted (fun a b => areaKey a ≤ areaKey b)
        (filter_properties_strict props c)) ∧
    (c.size_preference = some "large" →
      List.Sorted (fun a b => areaKey b ≤ areaKey a)
        (filter_properties_strict props c)) ∧
    (ac.price_preference = some "low" →
      List.Sorted (fun a b => priceKeyTop a ≤ priceKeyTop b)
        (filter_properties_with_criteria props (some ac))) ∧
    (ac.price_preference = some "high" →
      List.Sorted (fun a b => priceKeyZero b ≤ priceKeyZero a)
        (filter_properties_with_criteria props (some ac))) := by
  refine ⟨?_, ?_, ?_, ?_, ?_, ?_⟩
  · intro h1 h2
    have hne : ¬ (c.isEmpty = true) := by simp [SearchCriteria.isEmpty, h1]
    unfold filter_properties_strict
    rw [if_neg hne, h1, h2]
    exact sorted_sortAscBy priceKeyTop _
  · intro h1 h2
    have hne : ¬ (c.isEmpty = true) := by simp [SearchCriteria.isEmpty, h1]
    unfold filter_properties_strict
    rw [if_neg hne, h1, h2]
    exact sorted_sortDescBy priceKeyZero _
  · intro h1
    have hne : ¬ (c.isEmpty = true) := by simp [SearchCriteria.isEmpty, h1]
    unfold filter_properties_strict
    rw [if_neg hne, h1]
    exact sorted_sortAscBy areaKey _
  · intro h1
    have hne : ¬ (c.isEmpty = true) := by simp [SearchCriteria.isEmpty, h1]
    unfold filter_properties_strict
    rw [if_neg hne, h1]
    exact sorted_sortDescBy areaKey _
  · intro h1
    have hq : filter_properties_with_criteria props (some ac)
        = applyPricePref ac.price_preference
            (sortDescBy (aiScore ac)
              (props.filter
                (fun p => passes_hard_filters ac p || decide (0 < aiScore ac p)))) := rfl
    rw [hq, h1]
    exact sorted_sortAscBy priceKeyTop _
  · intro h1
    have hq : filter_properties_with_criteria props (some ac)
        = applyPricePref ac.price_preference
            (sortDescBy (aiScore ac)
              (props.filter
                (fun p => passes_hard_filters ac p || decide (0 < aiScore ac p)))) := rfl
    rw [hq, h1]
    exact sorted_sortDescBy priceKeyZero _

/-- C8 (witness): with only a small-size preference the strict filter's
result is sorted ascending by total area. -/
theorem preference_sort_order_witness :
    List.Sorted (fun a b => areaKey a ≤ areaKey b)
      (filter_properties_strict [recA, recB] sizeSmallCrit) :=
  (preference_sort_order [recA, recB] sizeSmallCrit {}).2.2.1 rfl

/-- C9 (counterexample): the claim "update preserves the record's creation
timestamp for every update payload" is false: a payload that carries its own
`created_at` overwrites the stored one. -/
theorem update_timestamp_counterexample :
    origRec.created_at = some "2024-01-01" ∧
    (update_property [origRec] "a" updPayload).1 = [updPayload] ∧
    updPayload.created_at ≠ origRec.created_at := by
  decide

/-- C9 (amended): updating the first record whose identifier matches replaces
it by the payload with the identifier preserved, preserves the original
creation timestamp whenever the payload carries no `created_at` of its own
(the application's admin form never sends one), and leaves every other record
of the store unchanged. -/
theorem update_preserves_id_and_frame (pre post : List Property)
    (p upd : Property) (pid : String)
    (hpre : pre.all (fun q => q.id != pid) = true)
    (hp : p.id = pid) (hts : upd.created_at = none) :
    update_property (pre ++ p :: post) pid upd =
      (pre ++ { upd with id := pid, created_at := p.created_at } :: post, true) := by
  induction pre with
  | nil =>
    simp only [List.nil_append]
    simp [update_property, hp, hts]
  | cons q t ih =>
    simp only [List.all_cons, Bool.and_eq_true, bne_iff_ne, ne_eq] at hpre
    obtain ⟨hq, ht⟩ := hpre
    simp only [List.cons_append]
    simp [update_property, hq, ih (by simpa using ht)]

/-- C9 (witness): a timestamp-less payload inherits the stored record's
creation timestamp and identifier. -/
theorem update_preserves_id_and_frame_witness :
    update_property [origRec] "a" updNoTs =
      ([{ updNoTs with id := "a", created_at := some "2024-01-01" }], true) := by
  have h := update_preserves_id_and_frame [] [] origRec updNoTs "a" rfl rfl rfl
  simpa [origRec] using h

/-- C10: whenever the criteria hold a budget range, every record whose price
key is absent or equal to 0 is excluded from the strict filter's result, no
matter what else it satisfies. -/
theorem budget_filter_excludes_priceless (props : List Property)
    (c : SearchCriteria) (p : Property)
    (hb : c.budget_range.isSome = true)
    (hp : p.harga = none ∨ p.harga = some 0) :
    p ∉ filter_properties_strict props c := by
  intro hmem
  have hne : c.isEmpty = false := by
    rcases hbr : c.budget_range with _ | br
    · rw [hbr] at hb; simp at hb
    · simp [SearchCriteria.isEmpty, hbr]
  have h2 := ((mem_strict_iff props c p hne).mp hmem).2
  have hcb : checkBudget c p = false := by
    rcases hbr : c.budget_range with _ | ⟨lo, hi⟩
    · rw [hbr] at hb; simp at hb
    · rcases hp with h | h <;> simp [checkBudget, hbr, h]
  simp [matchesCriteria, hcb] at h2

/-- C10 (witness): a record without a price key is excluded under a concrete
budget band. -/
theorem budget_filter_excludes_priceless_witness :
    nopriceRec ∉ filter_properties_strict [nopriceRec] budgetCrit :=
  budget_filter_excludes_priceless [nopriceRec] budgetCrit nopriceRec rfl (Or.inl rfl)
